import Mathlib

/-!
Verification of the CI-pipeline reliability analyzer
(`python-scripts/gitlab/gitlab_pipeline_performance_with_retry.py`).

The development shallowly embeds the program's core pieces:

* the resilient fetcher `make_api_request_with_retry` as a state machine over
  an abstract sequence of HTTP outcomes, recording the sleeps it performs;
* the paginator loop shared by `fetch_pipelines` and `fetch_pipeline_jobs`
  over an abstract list of pages;
* the per-pipeline fetch wrapper `fetch_pipeline_jobs_with_metadata` and the
  dispatcher that maps it over the pipeline list;
* the classification and aggregation loop of
  `analyze_flakiness_vs_legitimate_failures`.

Machine integers do not overflow in the source's reachable ranges, so counters
are embedded as `Nat`.
-/

/- Source constants (module header of the script). -/
def RETRY_ATTEMPTS : Nat := 3
def RETRY_BACKOFF : Nat := 2
def MAX_WORKERS : Nat := 8

/-- One job execution as returned by the jobs endpoint: the fields the
analyzer reads (`job['id']`, `job['name']`, `job['status']`). -/
structure Job where
  id : Nat
  name : String
  status : String
deriving DecidableEq

/-- A pipeline as returned by the pipelines endpoint: the fields the analyzer
reads (`pipeline['id']`, `pipeline['ref']`). -/
structure Pipeline where
  id : Nat
  ref : String
deriving DecidableEq

/-- Classification verdicts: the four branches of the analysis loop. -/
inductive Verdict
  | CleanSuccess
  | Flaky
  | LegitimateFailure
  | Other
deriving DecidableEq

/-- Embedding of `job_list.sort(key=lambda x: x['id'])`: stable ascending sort
by job identifier. -/
def sortJobs (l : List Job) : List Job :=
  l.insertionSort (fun a b => a.id ≤ b.id)

/-- The verdict branch structure of the analysis loop (lines 344-382 of the
source), applied to an already-sorted job group.  The source does not build a
verdict value; the verdict is which branch executes. -/
def classifyOrdered (sorted : List Job) : Verdict :=
  let statuses := sorted.map Job.status
  let num_attempts := sorted.length
  let has_success := statuses.contains "success"
  let has_failure := statuses.contains "failed"
  let only_other_statuses := !has_success && !has_failure
  if num_attempts == 1 && ((sorted.headD ⟨0, "", ""⟩).status == "success") then
    Verdict.CleanSuccess
  else if has_failure && has_success then
    Verdict.Flaky
  else if has_failure && !has_success then
    Verdict.LegitimateFailure
  else if only_other_statuses then
    Verdict.Other
  else if has_success && !has_failure && decide (1 < num_attempts) then
    Verdict.CleanSuccess
  else
    Verdict.Other

/-- Verdict of a job group: the source sorts the group by id before the
branch tests run. -/
def classify (job_list : List Job) : Verdict :=
  classifyOrdered (sortJobs job_list)

/-- Per-job-name running totals: the fields of the `job_stats` defaultdict
entry (lines 264-274 of the source). -/
structure JobStats where
  total_job_groups : Nat
  flakey_occurrences : Nat
  legitimate_failures : Nat
  clean_successes : Nat
  other_statuses : Nat
  total_retry_attempts : Nat
  flakey_retry_attempts : Nat
  legitimate_retry_attempts : Nat
  flakey_pipelines : List Nat
deriving DecidableEq

/-- Fresh defaultdict entry: every counter zero, empty pipeline list. -/
def emptyStats : JobStats :=
  ⟨0, 0, 0, 0, 0, 0, 0, 0, []⟩

/-- One flaky-occurrence record as appended to `flakey_details`
(lines 354-360 of the source). -/
structure FlakeyDetail where
  pipeline_id : Nat
  pipeline_ref : String
  job_name : String
  num_attempts : Nat
  statuses : List String
deriving DecidableEq

/-- Body of the per-job-group analysis loop (lines 322-382 of the source):
sort the group by id, read its statuses, bump the group and retry counters,
then run the verdict branches, returning the updated stats entry for this job
name and the flaky-occurrence record appended to `flakey_details` (if any). -/
def updateGroup (pipeline_id : Nat) (pipeline_ref : String) (job_name : String)
    (job_list : List Job) (s : JobStats) : JobStats × Option FlakeyDetail :=
  let sorted := sortJobs job_list
  let statuses := sorted.map Job.status
  let num_attempts := sorted.length
  let retry_count := num_attempts - 1
  let s1 := { s with
    total_job_groups := s.total_job_groups + 1,
    total_retry_attempts := s.total_retry_attempts + retry_count }
  let has_success := statuses.contains "success"
  let has_failure := statuses.contains "failed"
  let only_other_statuses := !has_success && !has_failure
  if num_attempts == 1 && ((sorted.headD ⟨0, "", ""⟩).status == "success") then
    ({ s1 with clean_successes := s1.clean_successes + 1 }, none)
  else if has_failure && has_success then
    ({ s1 with
        flakey_occurrences := s1.flakey_occurrences + 1,
        flakey_retry_attempts := s1.flakey_retry_attempts + retry_count,
        flakey_pipelines := s1.flakey_pipelines ++ [pipeline_id] },
     some ⟨pipeline_id, pipeline_ref, job_name, num_attempts, statuses⟩)
  else if has_failure && !has_success then
    ({ s1 with
        legitimate_failures := s1.legitimate_failures + 1,
        legitimate_retry_attempts := s1.legitimate_retry_attempts + retry_count }, none)
  else if only_other_statuses then
    ({ s1 with other_statuses := s1.other_statuses + 1 }, none)
  else if has_success && !has_failure && decide (1 < num_attempts) then
    ({ s1 with clean_successes := s1.clean_successes + 1 }, none)
  else
    ({ s1 with other_statuses := s1.other_statuses + 1 }, none)

/-- Outcome of one `requests.get` call: either a response with a status code
and an optional Retry-After header value, or a raised network error
(`requests.RequestException`). -/
inductive Outcome
  | ok (status : Nat) (retryAfter : Option Nat)
  | netErr (msg : String)
deriving DecidableEq

/-- Loop body of `make_api_request_with_retry` (lines 150-176 of the source),
indexed by the number of loop iterations left (`RETRY_ATTEMPTS - attempt`) and
the current loop index `attempt`.  `call i` is the outcome of the HTTP call
made on iteration `i`; the second component of the result records the `sleep`
durations performed, in order.  On 429 the loop sleeps Retry-After (default
60) and continues; `raise_for_status` turns a 4xx/5xx status into a caught
`RequestException`, retried with backoff `RETRY_BACKOFF ^ attempt` on all but
the last iteration; falling off the loop raises a terminal error. -/
def fetchLoop (call : Nat → Outcome) :
    Nat → Nat → List Nat → Except String Nat × List Nat
  | 0, _, sleeps => (Except.error "Max retries exceeded", sleeps)
  | remaining + 1, attempt, sleeps =>
    match call attempt with
    | Outcome.ok status retryAfter =>
      if status == 429 then
        fetchLoop call remaining (attempt + 1) (sleeps ++ [retryAfter.getD 60])
      else if 400 ≤ status ∧ status < 600 then
        if attempt < RETRY_ATTEMPTS - 1 then
          fetchLoop call remaining (attempt + 1) (sleeps ++ [RETRY_BACKOFF ^ attempt])
        else (Except.error ("HTTP " ++ toString status), sleeps)
      else (Except.ok status, sleeps)
    | Outcome.netErr msg =>
      if attempt < RETRY_ATTEMPTS - 1 then
        fetchLoop call remaining (attempt + 1) (sleeps ++ [RETRY_BACKOFF ^ attempt])
      else (Except.error msg, sleeps)

/-- The resilient fetcher: run the retry loop from attempt 0 with no sleeps
performed yet.  A successful response is represented by its status code. -/
def make_api_request_with_retry (call : Nat → Outcome) :
    Except String Nat × List Nat :=
  fetchLoop call RETRY_ATTEMPTS 0 []

/-- Modelled from the spec (section 4.1), for comparison with the code: a
fetcher whose 429 handling does not consume the attempt budget, whose non-429
4xx statuses are terminal without retry, and whose transient failures
(network errors and 5xx) are retried up to `RETRY_ATTEMPTS` with backoff
indexed by the count of transient failures so far.  The first argument is
recursion fuel bounding the number of HTTP calls (the spec's fetcher need not
terminate under unbounded 429 responses). -/
def specFetchLoop (call : Nat → Outcome) :
    Nat → Nat → Nat → List Nat → Except String Nat × List Nat
  | 0, _, _, sleeps => (Except.error "fuel exhausted", sleeps)
  | fuel + 1, callIdx, failCount, sleeps =>
    match call callIdx with
    | Outcome.ok status retryAfter =>
      if status == 429 then
        specFetchLoop call fuel (callIdx + 1) failCount (sleeps ++ [retryAfter.getD 60])
      else if 400 ≤ status ∧ status < 500 then
        (Except.error ("HTTP " ++ toString status), sleeps)
      else if 500 ≤ status ∧ status < 600 then
        if failCount + 1 < RETRY_ATTEMPTS then
          specFetchLoop call fuel (callIdx + 1) (failCount + 1)
            (sleeps ++ [RETRY_BACKOFF ^ failCount])
        else (Except.error ("HTTP " ++ toString status), sleeps)
      else (Except.ok status, sleeps)
    | Outcome.netErr msg =>
      if failCount + 1 < RETRY_ATTEMPTS then
        specFetchLoop call fuel (callIdx + 1) (failCount + 1)
          (sleeps ++ [RETRY_BACKOFF ^ failCount])
      else (Except.error msg, sleeps)

/-- Modelled from the spec: the spec's fetcher with enough fuel for the
concrete scenarios considered here. -/
def specFetch (call : Nat → Outcome) : Except String Nat × List Nat :=
  specFetchLoop call 16 0 0 []

/-- One page of a paginated response: the decoded body items together with
the `rel="next"` URL parsed from the Link header (if any). -/
structure Page (α : Type) where
  items : List α
  nextUrl : Option String
deriving DecidableEq

/-- The pagination loop shared by `fetch_pipelines` (lines 107-128) and
`fetch_pipeline_jobs` (lines 192-213): given the successive pages the server
returns along the next-link chain, accumulate items.  The loop first breaks
if the page body is empty (`if not data: break`), otherwise extends the
accumulator and continues exactly when a `rel="next"` link is present. -/
def paginate {α : Type} : List (Page α) → List α
  | [] => []
  | p :: rest =>
    if p.items.isEmpty then []
    else
      match p.nextUrl with
      | some _ => p.items ++ paginate rest
      | none => p.items

/-- Modelled from the spec (section 4.2), for comparison with the code: a
paginator that forwards an empty page as-is and still follows its next link,
terminating only when the next link is absent. -/
def paginateSpec {α : Type} : List (Page α) → List α
  | [] => []
  | p :: rest =>
    match p.nextUrl with
    | some _ => p.items ++ paginateSpec rest
    | none => p.items

/-- One entry of `pipeline_results`: the dictionary built by
`fetch_pipeline_jobs_with_metadata` (lines 229-251 of the source), with the
pipeline's ref standing in for the full pipeline dictionary. -/
structure PipelineResult where
  pipeline_id : Nat
  pipeline_ref : String
  jobs : List Job
  success : Bool
  error : Option String
deriving DecidableEq

/-- Embedding of `fetch_pipeline_jobs_with_metadata`: run the (abstracted)
job collection for one pipeline; a raised `RequestException` is caught and
recorded as a failure entry with the pipeline id and the error message, an
empty job list, and `success = False`. -/
def fetch_pipeline_jobs_with_metadata (fetch : Nat → Except String (List Job))
    (p : Pipeline) : PipelineResult :=
  match fetch p.id with
  | Except.ok jobs => ⟨p.id, p.ref, jobs, true, none⟩
  | Except.error e => ⟨p.id, p.ref, [], false, some e⟩

/-- The concurrent dispatcher's result set (lines 286-302 of the source):
one submitted task per input pipeline, each producing exactly one
`PipelineResult`.  `as_completed` drains the tasks in an arbitrary completion
order, i.e. the drained list is some permutation of this list. -/
def dispatch (fetch : Nat → Except String (List Job)) (ps : List Pipeline) :
    List PipelineResult :=
  ps.map (fetch_pipeline_jobs_with_metadata fetch)

example : classify [⟨5, "t", "failed"⟩, ⟨7, "t", "success"⟩] = Verdict.Flaky := by decide

example : classify [⟨5, "t", "failed"⟩, ⟨7, "t", "failed"⟩] = Verdict.LegitimateFailure := by
  decide

example : classify [⟨5, "t", "success"⟩] = Verdict.CleanSuccess := by decide

example : classify [⟨5, "t", "canceled"⟩] = Verdict.Other := by decide

example :
    updateGroup 101 "main" "unit-tests"
      [⟨3, "unit-tests", "failed"⟩, ⟨1, "unit-tests", "failed"⟩, ⟨9, "unit-tests", "success"⟩]
      emptyStats
    = (⟨1, 1, 0, 0, 0, 2, 2, 0, [101]⟩,
       some ⟨101, "main", "unit-tests", 3, ["failed", "failed", "success"]⟩) := by decide

-- scratch checks of the fetcher model
example :
    make_api_request_with_retry (fun _ => Outcome.ok 200 none) = (Except.ok 200, []) := by
  rfl

example :
    make_api_request_with_retry (fun _ => Outcome.ok 404 none)
      = (Except.error "HTTP 404", [1, 2]) := by rfl

example :
    make_api_request_with_retry (fun _ => Outcome.ok 429 (some 5))
      = (Except.error "Max retries exceeded", [5, 5, 5]) := by rfl

example :
    make_api_request_with_retry
      (fun i => if i < 2 then Outcome.netErr "timeout" else Outcome.ok 200 none)
      = (Except.ok 200, [1, 2]) := by rfl

example :
    specFetch (fun _ => Outcome.ok 404 none) = (Except.error "HTTP 404", []) := by rfl

-- scratch checks of the paginator model
example :
    paginate [Page.mk [1, 2] (some "u2"), Page.mk [3] none] = [1, 2, 3] := by decide

example :
    paginate [Page.mk [1] (some "u2"), Page.mk ([] : List Nat) (some "u3"),
      Page.mk [2] none] = [1] := by decide

example :
    paginateSpec [Page.mk [1] (some "u2"), Page.mk ([] : List Nat) (some "u3"),
      Page.mk [2] none] = [1, 2] := by decide

/-- Mutable aggregation state of `analyze_flakiness_vs_legitimate_failures`:
the `job_stats` defaultdict (its key list in insertion order, plus the entry
for every key — absent keys map to the fresh entry, as a defaultdict does)
and the `flakey_details` list. -/
structure AnalysisState where
  keys : List String
  job_stats : String → JobStats
  flakey_details : List FlakeyDetail

/-- Initial aggregation state: empty defaultdict, no flaky details. -/
def initState : AnalysisState :=
  ⟨[], fun _ => emptyStats, []⟩

/-- Key order of the per-pipeline `jobs_by_name` defaultdict (lines 317-319
of the source): distinct job names in order of first occurrence. -/
def groupNames (jobs : List Job) : List String :=
  jobs.foldl (fun acc j => if j.name ∈ acc then acc else acc ++ [j.name]) []

/-- A Python-style optional append: the list of zero or one elements. -/
def optToList {α : Type} : Option α → List α
  | some a => [a]
  | none => []

/-- The `for job_name, job_list in jobs_by_name.items()` loop (lines 322-382
of the source): for each job name of the pipeline, update that name's
`job_stats` entry (creating the key on first use) and append any
flaky-occurrence record. -/
def processNames (pid : Nat) (ref : String) (jobs : List Job) :
    List String → AnalysisState → AnalysisState
  | [], st => st
  | n :: ns, st =>
    let r := updateGroup pid ref n (jobs.filter (fun j => j.name == n)) (st.job_stats n)
    processNames pid ref jobs ns
      ⟨if n ∈ st.keys then st.keys else st.keys ++ [n],
       fun m => if m == n then r.fst else st.job_stats m,
       st.flakey_details ++ optToList r.snd⟩

/-- Body of the `for result in pipeline_results` loop (lines 307-382): a
failed fetch result is logged and skipped (`continue`); a successful one has
its jobs grouped by name and each group analyzed. -/
def processResult (st : AnalysisState) (res : PipelineResult) : AnalysisState :=
  if res.success then
    processNames res.pipeline_id res.pipeline_ref res.jobs (groupNames res.jobs) st
  else st

/-- The analysis phase of `analyze_flakiness_vs_legitimate_failures`
(lines 307-385): fold the drained pipeline results, in their arrival order,
into the aggregation state; the function's return value is the final
`(job_stats, flakey_details)` pair, here the final state. -/
def analyze_flakiness_vs_legitimate_failures
    (pipeline_results : List PipelineResult) : AnalysisState :=
  pipeline_results.foldl processResult initState

/-- Vector of the eight numeric counters of a `job_stats` entry, in field
order (the `flakey_pipelines` list is not a counter and is excluded). -/
abbrev CountVec := Nat × Nat × Nat × Nat × Nat × Nat × Nat × Nat

/-- Numeric counters of one stats entry as a vector. -/
def JobStats.countVec (s : JobStats) : CountVec :=
  (s.total_job_groups, s.flakey_occurrences, s.legitimate_failures,
   s.clean_successes, s.other_statuses, s.total_retry_attempts,
   s.flakey_retry_attempts, s.legitimate_retry_attempts)

/-- Counter increments contributed by one job group, determined by its
verdict and size. -/
def groupContrib (l : List Job) : CountVec :=
  let rc := l.length - 1
  match classify l with
  | Verdict.CleanSuccess => (1, 0, 0, 1, 0, rc, 0, 0)
  | Verdict.Flaky => (1, 1, 0, 0, 0, rc, rc, 0)
  | Verdict.LegitimateFailure => (1, 0, 1, 0, 0, rc, 0, rc)
  | Verdict.Other => (1, 0, 0, 0, 1, rc, 0, 0)

/-- Counter increments contributed by one drained pipeline result: zero for a
failed fetch, otherwise the sum over this pipeline's job groups with the
given name. -/
def resultContrib (name : String) (r : PipelineResult) : CountVec :=
  if r.success then
    (((groupNames r.jobs).filter (fun m => m == name)).map
      (fun n => groupContrib (r.jobs.filter (fun j => j.name == n)))).sum
  else 0

/-- Global total of a numeric stats field over all job names, as computed by
the report writer (`sum(stats[field] for stats in job_stats.values())`,
lines 404-408 and 498-509 of the source). -/
def totalOf (f : JobStats → Nat) (st : AnalysisState) : Nat :=
  (st.keys.map (fun n => f (st.job_stats n))).sum

/-- Flakiness rate as computed on line 420 of the source (flaky groups over
total groups, as a percentage; the source guards the division by
`total_job_groups > 0`). -/
def flakinessRate (st : AnalysisState) : ℚ :=
  if 0 < totalOf JobStats.total_job_groups st then
    (totalOf JobStats.flakey_occurrences st : ℚ)
      / (totalOf JobStats.total_job_groups st) * 100
  else 0

/-- Reliability rate as computed on lines 423-427 of the source: clean
successes over clean successes plus flaky groups, as a percentage, defaulting
to 100 when that denominator is zero. -/
def reliabilityRate (st : AnalysisState) : ℚ :=
  if 0 < totalOf JobStats.total_job_groups st then
    (if 0 < totalOf JobStats.clean_successes st + totalOf JobStats.flakey_occurrences st then
      (totalOf JobStats.clean_successes st : ℚ)
        / (totalOf JobStats.clean_successes st + totalOf JobStats.flakey_occurrences st) * 100
    else 100)
  else 0

-- scratch checks of the aggregation model (the spec's section 8 example)
example :
    ((analyze_flakiness_vs_legitimate_failures
      [⟨101, "main", [⟨1, "unit-tests", "failed"⟩, ⟨2, "unit-tests", "failed"⟩,
          ⟨3, "unit-tests", "success"⟩], true, none⟩,
       ⟨102, "dev", [⟨4, "lint", "failed"⟩], true, none⟩]).job_stats "unit-tests")
    = ⟨1, 1, 0, 0, 0, 2, 2, 0, [101]⟩ := by decide

example :
    (analyze_flakiness_vs_legitimate_failures
      [⟨101, "main", [⟨1, "unit-tests", "failed"⟩, ⟨2, "unit-tests", "failed"⟩,
          ⟨3, "unit-tests", "success"⟩], true, none⟩,
       ⟨102, "dev", [⟨4, "lint", "failed"⟩], true, none⟩]).flakey_details
    = [⟨101, "main", "unit-tests", 3, ["failed", "failed", "success"]⟩] := by decide

example :
    totalOf JobStats.total_job_groups
      (analyze_flakiness_vs_legitimate_failures
        [⟨101, "main", [⟨1, "unit-tests", "failed"⟩, ⟨2, "unit-tests", "failed"⟩,
            ⟨3, "unit-tests", "success"⟩], true, none⟩,
         ⟨102, "dev", [⟨4, "lint", "failed"⟩], true, none⟩]) = 2 := by decide

/-- The source's sort is a permutation of the job group. -/
lemma sortJobs_perm (l : List Job) : (sortJobs l).Perm l :=
  List.perm_insertionSort _ l

/-- Membership tests agree across permuted status lists. -/
lemma contains_eq_of_perm (l1 l2 : List String) (h : l1.Perm l2) (a : String) :
    l1.contains a = l2.contains a := by
  have h1 : l1.contains a = true ↔ l2.contains a = true := by
    simp [h.mem_iff]
  cases hc : l1.contains a
  · cases hc2 : l2.contains a
    · rfl
    · have hx := h1.mpr hc2
      rw [hc] at hx
      simp at hx
  · exact (h1.mp hc).symm

/-- A list holding two distinct elements has at least two entries. -/
lemma one_lt_length_of_two_mem {α : Type} {a b : α} {l : List α} (ha : a ∈ l)
    (hb : b ∈ l) (hab : a ≠ b) : 1 < l.length := by
  cases l with
  | nil => simp at ha
  | cons x t =>
    cases t with
    | nil =>
      simp at ha hb
      exact absurd (ha.trans hb.symm) hab
    | cons y t2 => simp [List.length_cons]

/-- The verdict branch structure depends only on the multiset of the group:
its length, its status memberships, and (for singletons) its unique member. -/
lemma classifyOrdered_perm {m1 m2 : List Job} (h : m1.Perm m2) :
    classifyOrdered m1 = classifyOrdered m2 := by
  cases m1 with
  | nil =>
    have : m2 = [] := h.symm.eq_nil
    subst this; rfl
  | cons a t =>
    cases t with
    | nil =>
      have : m2 = [a] := List.perm_singleton.mp h.symm
      subst this; rfl
    | cons b t2 =>
      have hlen := h.length_eq
      have hcs := contains_eq_of_perm _ _ (h.map Job.status) "success"
      have hcf := contains_eq_of_perm _ _ (h.map Job.status) "failed"
      have e1 : ((a :: b :: t2).length == 1) = false := by
        simp
      have e2 : (m2.length == 1) = false := by
        rw [← hlen]; simp
      simp only [classifyOrdered]
      rw [hcs, hcf, hlen, e2]
      simp

/-- The verdict of a job group depends only on the multiset of its members. -/
lemma classify_perm {l1 l2 : List Job} (h : l1.Perm l2) : classify l1 = classify l2 :=
  classifyOrdered_perm (((sortJobs_perm l1).trans h).trans (sortJobs_perm l2).symm)

/-- The numeric-counter effect of one job-group update is additive: the
updated entry's counters are the old counters plus a contribution depending
only on the group. -/
lemma updateGroup_countVec (pid : Nat) (ref jn : String) (l : List Job) (s : JobStats) :
    ((updateGroup pid ref jn l s).fst).countVec = s.countVec + groupContrib l := by
  have hlen : (sortJobs l).length = l.length := (sortJobs_perm l).length_eq
  simp only [updateGroup, groupContrib, classify, classifyOrdered, JobStats.countVec]
  split_ifs <;> simp [Prod.ext_iff, hlen]

/-- Folding one pipeline's job groups into the stats map adds, at every job
name, the sum of that name's group contributions. -/
lemma processNames_stats_countVec (pid : Nat) (ref : String) (jobs : List Job)
    (ns : List String) (st : AnalysisState) (name : String) :
    ((processNames pid ref jobs ns st).job_stats name).countVec
      = (st.job_stats name).countVec
        + ((ns.filter (fun m => m == name)).map
            (fun n => groupContrib (jobs.filter (fun j => j.name == n)))).sum := by
  induction ns generalizing st with
  | nil => simp [processNames]
  | cons n ns ih =>
    simp only [processNames]
    rw [ih]
    by_cases h : n = name
    · subst h
      simp [List.filter_cons, updateGroup_countVec, add_assoc]
    · have hb : (n == name) = false := by simp [h]
      have hb2 : (name == n) = false := by simp [Ne.symm h]
      simp [List.filter_cons, hb, hb2]

/-- Folding one drained pipeline result adds its contribution at every name. -/
lemma processResult_stats_countVec (st : AnalysisState) (res : PipelineResult)
    (name : String) :
    ((processResult st res).job_stats name).countVec
      = (st.job_stats name).countVec + resultContrib name res := by
  by_cases h : res.success
  · simp [processResult, h, resultContrib, processNames_stats_countVec]
  · simp [processResult, h, resultContrib]

/-- Folding a list of drained results adds the sum of their contributions at
every name. -/
lemma foldl_stats_countVec (results : List PipelineResult) (st : AnalysisState)
    (name : String) :
    ((results.foldl processResult st).job_stats name).countVec
      = (st.job_stats name).countVec + (results.map (resultContrib name)).sum := by
  induction results generalizing st with
  | nil => simp
  | cons r rs ih =>
    simp [List.foldl_cons, ih, processResult_stats_countVec, add_assoc]

/-- Keys present after folding one pipeline's groups: the old keys plus the
processed names. -/
lemma processNames_keys_mem (pid : Nat) (ref : String) (jobs : List Job)
    (ns : List String) (st : AnalysisState) (m : String) :
    m ∈ (processNames pid ref jobs ns st).keys ↔ m ∈ st.keys ∨ m ∈ ns := by
  induction ns generalizing st with
  | nil => simp [processNames]
  | cons n ns ih =>
    simp only [processNames]
    rw [ih]
    by_cases h : n ∈ st.keys
    · simp only [if_pos h, List.mem_cons]
      constructor
      · rintro (hk | hns)
        · exact Or.inl hk
        · exact Or.inr (Or.inr hns)
      · rintro (hk | rfl | hns)
        · exact Or.inl hk
        · exact Or.inl h
        · exact Or.inr hns
    · simp only [if_neg h, List.mem_append, List.mem_singleton, List.mem_cons]
      tauto

/-- The key list stays duplicate-free: a key is appended only on first use. -/
lemma processNames_keys_nodup (pid : Nat) (ref : String) (jobs : List Job)
    (ns : List String) (st : AnalysisState) (h : st.keys.Nodup) :
    (processNames pid ref jobs ns st).keys.Nodup := by
  induction ns generalizing st with
  | nil => simpa [processNames]
  | cons n ns ih =>
    simp only [processNames]
    apply ih
    by_cases hn : n ∈ st.keys
    · simpa [hn]
    · simp [hn, List.nodup_append, h, List.disjoint_singleton]

/-- Keys present after folding one drained result. -/
lemma processResult_keys_mem (st : AnalysisState) (res : PipelineResult) (m : String) :
    m ∈ (processResult st res).keys
      ↔ m ∈ st.keys ∨ (res.success = true ∧ m ∈ groupNames res.jobs) := by
  by_cases h : res.success
  · simp [processResult, h, processNames_keys_mem]
  · simp [processResult, h]

lemma processResult_keys_nodup (st : AnalysisState) (res : PipelineResult)
    (h : st.keys.Nodup) : (processResult st res).keys.Nodup := by
  by_cases hs : res.success
  · simp only [processResult, hs, if_pos]
    exact processNames_keys_nodup _ _ _ _ _ h
  · simpa [processResult, hs]

/-- Keys present after folding a list of drained results: exactly the job
names occurring in some successful result. -/
lemma foldl_keys_mem (results : List PipelineResult) (st : AnalysisState) (m : String) :
    m ∈ (results.foldl processResult st).keys
      ↔ m ∈ st.keys ∨ ∃ r ∈ results, r.success = true ∧ m ∈ groupNames r.jobs := by
  induction results generalizing st with
  | nil => simp
  | cons r rs ih =>
    simp only [List.foldl_cons]
    rw [ih, processResult_keys_mem]
    simp only [List.mem_cons]
    constructor
    · rintro ((hk | hr) | ⟨x, hx, hsx, hgx⟩)
      · exact Or.inl hk
      · exact Or.inr ⟨r, Or.inl rfl, hr⟩
      · exact Or.inr ⟨x, Or.inr hx, hsx, hgx⟩
    · rintro (hk | ⟨x, (rfl | hx), hsx, hgx⟩)
      · exact Or.inl (Or.inl hk)
      · exact Or.inl (Or.inr ⟨hsx, hgx⟩)
      · exact Or.inr ⟨x, hx, hsx, hgx⟩

lemma foldl_keys_nodup (results : List PipelineResult) (st : AnalysisState)
    (h : st.keys.Nodup) : (results.foldl processResult st).keys.Nodup := by
  induction results generalizing st with
  | nil => simpa
  | cons r rs ih => exact ih _ (processResult_keys_nodup _ _ h)

/-- Failed fetch results are skipped by the analysis loop: folding a result
list is the same as folding only its successful entries. -/
lemma foldl_processResult_filter (results : List PipelineResult) (st : AnalysisState) :
    results.foldl processResult st
      = (results.filter (fun r => r.success)).foldl processResult st := by
  induction results generalizing st with
  | nil => rfl
  | cons r rs ih =>
    by_cases h : r.success
    · simp [List.filter_cons, h, List.foldl_cons, ih]
    · simp [List.filter_cons, h, List.foldl_cons, ih, processResult]

/-- Claim C1: a job group whose statuses contain at least one "failed" and at
least one "success" is classified Flaky; its stats entry gains one flaky
occurrence, retry-attempts `n - 1` (n the group size) on the flaky
retry-attempt counter, and the pipeline id on the flaky pipeline list; and
exactly one flaky-occurrence record is appended, carrying the pipeline id,
ref, job name, attempt count, and the ordered (id-ascending) status
sequence. -/
theorem C1_flaky_group (pid : Nat) (ref jn : String) (l : List Job) (s : JobStats)
    (hf : "failed" ∈ l.map Job.status) (hs : "success" ∈ l.map Job.status) :
    classify l = Verdict.Flaky ∧
    (updateGroup pid ref jn l s).fst = { s with
      total_job_groups := s.total_job_groups + 1,
      total_retry_attempts := s.total_retry_attempts + (l.length - 1),
      flakey_occurrences := s.flakey_occurrences + 1,
      flakey_retry_attempts := s.flakey_retry_attempts + (l.length - 1),
      flakey_pipelines := s.flakey_pipelines ++ [pid] } ∧
    (updateGroup pid ref jn l s).snd =
      some ⟨pid, ref, jn, l.length, (sortJobs l).map Job.status⟩ := by
  have hperm := (sortJobs_perm l).map Job.status
  have hf2 : "failed" ∈ (sortJobs l).map Job.status := hperm.mem_iff.mpr hf
  have hs2 : "success" ∈ (sortJobs l).map Job.status := hperm.mem_iff.mpr hs
  have pf : ∃ a ∈ sortJobs l, a.status = "failed" := List.mem_map.mp hf2
  have ps : ∃ a ∈ sortJobs l, a.status = "success" := List.mem_map.mp hs2
  have hlen2 : 1 < ((sortJobs l).map Job.status).length :=
    one_lt_length_of_two_mem hf2 hs2 (by decide)
  have hleneq : (sortJobs l).length = l.length := (sortJobs_perm l).length_eq
  have pn1 : ¬ l.length = 1 := by
    simp only [List.length_map] at hlen2
    omega
  refine ⟨?_, ?_, ?_⟩ <;>
    simp [classify, classifyOrdered, updateGroup, hleneq, pn1, pf, ps]

/-- Claim C8: a job group whose statuses contain at least one "failed" and no
"success" is classified LegitimateFailure; its stats entry gains one
legitimate failure and retry-attempts `n - 1` on the legitimate-failure
retry-attempt counter, and no flaky-occurrence record is produced. -/
theorem C8_legitimate_failure (pid : Nat) (ref jn : String) (l : List Job) (s : JobStats)
    (hf : "failed" ∈ l.map Job.status) (hs : "success" ∉ l.map Job.status) :
    classify l = Verdict.LegitimateFailure ∧
    (updateGroup pid ref jn l s).fst = { s with
      total_job_groups := s.total_job_groups + 1,
      total_retry_attempts := s.total_retry_attempts + (l.length - 1),
      legitimate_failures := s.legitimate_failures + 1,
      legitimate_retry_attempts := s.legitimate_retry_attempts + (l.length - 1) } ∧
    (updateGroup pid ref jn l s).snd = none := by
  have hperm := (sortJobs_perm l).map Job.status
  have hf2 : "failed" ∈ (sortJobs l).map Job.status := hperm.mem_iff.mpr hf
  have hs2 : "success" ∉ (sortJobs l).map Job.status := fun hx => hs (hperm.mem_iff.mp hx)
  have pf : ∃ a ∈ sortJobs l, a.status = "failed" := List.mem_map.mp hf2
  have ps : ∀ x ∈ sortJobs l, ¬ x.status = "success" := by
    intro x hx hc
    exact hs2 (List.mem_map.mpr ⟨x, hx, hc⟩)
  have hleneq : (sortJobs l).length = l.length := (sortJobs_perm l).length_eq
  have p0 : ¬(l.length = 1
      ∧ ((sortJobs l).head?.getD (⟨0, "", ""⟩ : Job)).status = "success") := by
    rintro ⟨h1, h2⟩
    have hl1 : (sortJobs l).length = 1 := by omega
    obtain ⟨a, ha⟩ := List.length_eq_one.mp hl1
    rw [ha] at h2
    simp at h2
    exact ps a (by simp [ha]) h2
  have pns : ¬∃ a ∈ sortJobs l, a.status = "success" := by
    push_neg
    exact ps
  refine ⟨?_, ?_, ?_⟩ <;>
    simp [classify, classifyOrdered, updateGroup, hleneq, pf, ps, p0] <;>
    rw [if_neg pns, if_pos ps]

/-- Claim C10: the verdict of a job group and its counter contribution
(including the recorded retry-attempt count) are invariant under any
permutation of the group's executions — they depend only on the group's size
and the multiset of statuses — and the mandatory id-ascending sort itself
never changes which verdict a group receives. -/
theorem C10_verdict_multiset_invariant (l1 l2 : List Job) (h : l1.Perm l2) :
    classify l1 = classify l2 ∧ groupContrib l1 = groupContrib l2 ∧
    classify (sortJobs l1) = classify l1 := by
  refine ⟨classify_perm h, ?_, classify_perm (sortJobs_perm l1)⟩
  simp [groupContrib, classify_perm h, h.length_eq]

/-- Witness for C1 at a concrete flaky group. -/
theorem C1_flaky_group_witness :
    classify [⟨3, "t", "failed"⟩, ⟨1, "t", "failed"⟩, ⟨9, "t", "success"⟩] = Verdict.Flaky ∧
    (updateGroup 101 "main" "t"
        [⟨3, "t", "failed"⟩, ⟨1, "t", "failed"⟩, ⟨9, "t", "success"⟩] emptyStats).fst
      = { emptyStats with
          total_job_groups := emptyStats.total_job_groups + 1,
          total_retry_attempts := emptyStats.total_retry_attempts + (3 - 1),
          flakey_occurrences := emptyStats.flakey_occurrences + 1,
          flakey_retry_attempts := emptyStats.flakey_retry_attempts + (3 - 1),
          flakey_pipelines := emptyStats.flakey_pipelines ++ [101] } ∧
    (updateGroup 101 "main" "t"
        [⟨3, "t", "failed"⟩, ⟨1, "t", "failed"⟩, ⟨9, "t", "success"⟩] emptyStats).snd
      = some ⟨101, "main", "t", 3,
          (sortJobs [⟨3, "t", "failed"⟩, ⟨1, "t", "failed"⟩, ⟨9, "t", "success"⟩]).map
            Job.status⟩ :=
  C1_flaky_group 101 "main" "t" _ emptyStats (by decide) (by decide)

/-- Witness for C8 at a concrete all-failed group. -/
theorem C8_legitimate_failure_witness :
    classify [⟨4, "lint", "failed"⟩, ⟨6, "lint", "failed"⟩] = Verdict.LegitimateFailure ∧
    (updateGroup 102 "dev" "lint"
        [⟨4, "lint", "failed"⟩, ⟨6, "lint", "failed"⟩] emptyStats).fst
      = { emptyStats with
          total_job_groups := emptyStats.total_job_groups + 1,
          total_retry_attempts := emptyStats.total_retry_attempts + (2 - 1),
          legitimate_failures := emptyStats.legitimate_failures + 1,
          legitimate_retry_attempts := emptyStats.legitimate_retry_attempts + (2 - 1) } ∧
    (updateGroup 102 "dev" "lint"
        [⟨4, "lint", "failed"⟩, ⟨6, "lint", "failed"⟩] emptyStats).snd = none :=
  C8_legitimate_failure 102 "dev" "lint" _ emptyStats (by decide) (by decide)

/-- Witness for C10 at a concrete permuted pair of groups. -/
theorem C10_verdict_multiset_invariant_witness :
    classify [⟨1, "t", "failed"⟩, ⟨2, "t", "success"⟩]
        = classify [⟨2, "t", "success"⟩, ⟨1, "t", "failed"⟩] ∧
    groupContrib [⟨1, "t", "failed"⟩, ⟨2, "t", "success"⟩]
        = groupContrib [⟨2, "t", "success"⟩, ⟨1, "t", "failed"⟩] ∧
    classify (sortJobs [⟨1, "t", "failed"⟩, ⟨2, "t", "success"⟩])
        = classify [⟨1, "t", "failed"⟩, ⟨2, "t", "success"⟩] :=
  C10_verdict_multiset_invariant _ _ (by decide)

/-- Equal counter vectors give equal counters, field by field. -/
lemma countVec_fields {s1 s2 : JobStats} (h : s1.countVec = s2.countVec) :
    s1.total_job_groups = s2.total_job_groups ∧
    s1.flakey_occurrences = s2.flakey_occurrences ∧
    s1.legitimate_failures = s2.legitimate_failures ∧
    s1.clean_successes = s2.clean_successes ∧
    s1.other_statuses = s2.other_statuses ∧
    s1.total_retry_attempts = s2.total_retry_attempts ∧
    s1.flakey_retry_attempts = s2.flakey_retry_attempts ∧
    s1.legitimate_retry_attempts = s2.legitimate_retry_attempts := by
  cases s1
  cases s2
  simpa [JobStats.countVec, Prod.ext_iff] using h

/-- Pointwise counter equality of the analyses of permuted result lists. -/
lemma analyze_stats_countVec_perm (l1 l2 : List PipelineResult) (h : l1.Perm l2)
    (name : String) :
    ((analyze_flakiness_vs_legitimate_failures l1).job_stats name).countVec
      = ((analyze_flakiness_vs_legitimate_failures l2).job_stats name).countVec := by
  unfold analyze_flakiness_vs_legitimate_failures
  rw [foldl_stats_countVec, foldl_stats_countVec, (h.map (resultContrib name)).sum_eq]

/-- The key lists of the analyses of permuted result lists are permutations
of one another. -/
lemma analyze_keys_perm (l1 l2 : List PipelineResult) (h : l1.Perm l2) :
    (analyze_flakiness_vs_legitimate_failures l1).keys.Perm
      (analyze_flakiness_vs_legitimate_failures l2).keys := by
  have h1 : (analyze_flakiness_vs_legitimate_failures l1).keys.Nodup :=
    foldl_keys_nodup l1 initState (by simp [initState])
  have h2 : (analyze_flakiness_vs_legitimate_failures l2).keys.Nodup :=
    foldl_keys_nodup l2 initState (by simp [initState])
  rw [List.perm_ext_iff_of_nodup h1 h2]
  intro m
  unfold analyze_flakiness_vs_legitimate_failures
  rw [foldl_keys_mem, foldl_keys_mem]
  simp only [initState, List.not_mem_nil, false_or]
  constructor
  · rintro ⟨r, hr, hp⟩
    exact ⟨r, h.subset hr, hp⟩
  · rintro ⟨r, hr, hp⟩
    exact ⟨r, h.symm.subset hr, hp⟩

/-- Global totals agree for permuted result lists, for every function of the
numeric counters. -/
lemma analyze_totalOf_perm (l1 l2 : List PipelineResult) (h : l1.Perm l2)
    (f : JobStats → Nat)
    (hf : ∀ s1 s2 : JobStats, s1.countVec = s2.countVec → f s1 = f s2) :
    totalOf f (analyze_flakiness_vs_legitimate_failures l1)
      = totalOf f (analyze_flakiness_vs_legitimate_failures l2) := by
  unfold totalOf
  have hstep :
      ((analyze_flakiness_vs_legitimate_failures l1).keys.map
        (fun n => f ((analyze_flakiness_vs_legitimate_failures l1).job_stats n)))
      = ((analyze_flakiness_vs_legitimate_failures l1).keys.map
        (fun n => f ((analyze_flakiness_vs_legitimate_failures l2).job_stats n))) := by
    apply List.map_congr_left
    intro n _
    exact hf _ _ (analyze_stats_countVec_perm l1 l2 h n)
  rw [hstep]
  exact ((analyze_keys_perm l1 l2 h).map _).sum_eq

/-- Claim C5: folding the per-pipeline results into the aggregator in any
permutation yields identical final totals — at every job name all eight
numeric counters agree, and the global totals of every counter field and the
derived flakiness and reliability rates agree. -/
theorem C5_aggregation_order_independent (l1 l2 : List PipelineResult)
    (h : l1.Perm l2) :
    (∀ name : String,
      ((analyze_flakiness_vs_legitimate_failures l1).job_stats name).countVec
        = ((analyze_flakiness_vs_legitimate_failures l2).job_stats name).countVec)
    ∧ (∀ f : JobStats → Nat, (∀ s1 s2 : JobStats, s1.countVec = s2.countVec → f s1 = f s2) →
        totalOf f (analyze_flakiness_vs_legitimate_failures l1)
          = totalOf f (analyze_flakiness_vs_legitimate_failures l2))
    ∧ flakinessRate (analyze_flakiness_vs_legitimate_failures l1)
        = flakinessRate (analyze_flakiness_vs_legitimate_failures l2)
    ∧ reliabilityRate (analyze_flakiness_vs_legitimate_failures l1)
        = reliabilityRate (analyze_flakiness_vs_legitimate_failures l2) := by
  have ht := analyze_totalOf_perm l1 l2 h JobStats.total_job_groups
    (fun _ _ hv => (countVec_fields hv).1)
  have hfl := analyze_totalOf_perm l1 l2 h JobStats.flakey_occurrences
    (fun _ _ hv => (countVec_fields hv).2.1)
  have hcl := analyze_totalOf_perm l1 l2 h JobStats.clean_successes
    (fun _ _ hv => (countVec_fields hv).2.2.2.1)
  refine ⟨analyze_stats_countVec_perm l1 l2 h,
    fun f hf => analyze_totalOf_perm l1 l2 h f hf, ?_, ?_⟩
  · unfold flakinessRate
    rw [ht, hfl]
  · unfold reliabilityRate
    rw [ht, hcl, hfl]

/-- Witness for C5 at a concrete pair of permuted result lists. -/
theorem C5_aggregation_order_independent_witness :
    ((analyze_flakiness_vs_legitimate_failures
        [⟨101, "main", [⟨1, "t", "failed"⟩, ⟨2, "t", "success"⟩], true, none⟩,
         ⟨102, "dev", [⟨3, "t", "failed"⟩], true, none⟩]).job_stats "t").countVec
      = ((analyze_flakiness_vs_legitimate_failures
        [⟨102, "dev", [⟨3, "t", "failed"⟩], true, none⟩,
         ⟨101, "main", [⟨1, "t", "failed"⟩, ⟨2, "t", "success"⟩], true, none⟩]).job_stats
          "t").countVec
    ∧ flakinessRate (analyze_flakiness_vs_legitimate_failures
        [⟨101, "main", [⟨1, "t", "failed"⟩, ⟨2, "t", "success"⟩], true, none⟩,
         ⟨102, "dev", [⟨3, "t", "failed"⟩], true, none⟩])
      = flakinessRate (analyze_flakiness_vs_legitimate_failures
        [⟨102, "dev", [⟨3, "t", "failed"⟩], true, none⟩,
         ⟨101, "main", [⟨1, "t", "failed"⟩, ⟨2, "t", "success"⟩], true, none⟩]) :=
  ⟨(C5_aggregation_order_independent _ _ (by decide)).1 "t",
   (C5_aggregation_order_independent _ _ (by decide)).2.2.1⟩

/-- Each dispatcher result carries the id of the pipeline it was built
from, on the success path and on the failure path alike. -/
lemma fetch_with_metadata_pipeline_id (fetch : Nat → Except String (List Job))
    (p : Pipeline) :
    (fetch_pipeline_jobs_with_metadata fetch p).pipeline_id = p.id := by
  unfold fetch_pipeline_jobs_with_metadata
  cases fetch p.id <;> rfl

/-- Claim C6: the dispatcher produces exactly one result per input pipeline —
position `i` of the result list is the result for pipeline `i`, and in any
completion-order permutation of the drained results, each pipeline id occurs
exactly as often as it occurs in the input, so no pipeline is missing or
duplicated; and one pipeline's result is determined by the fetch outcome for
that pipeline alone, so a permanent failure elsewhere cannot alter it. -/
theorem C6_dispatcher_exactly_once (fetch alt : Nat → Except String (List Job))
    (ps : List Pipeline) :
    (dispatch fetch ps).length = ps.length
    ∧ (∀ i : Nat, (dispatch fetch ps)[i]?
        = (ps[i]?).map (fetch_pipeline_jobs_with_metadata fetch))
    ∧ (∀ res : List PipelineResult, res.Perm (dispatch fetch ps) → ∀ pid : Nat,
        (res.filter (fun r => r.pipeline_id == pid)).length
          = (ps.filter (fun p => p.id == pid)).length)
    ∧ (∀ p ∈ ps, fetch p.id = alt p.id →
        fetch_pipeline_jobs_with_metadata fetch p
          = fetch_pipeline_jobs_with_metadata alt p) := by
  refine ⟨by simp [dispatch], fun i => by simp [dispatch], ?_, ?_⟩
  · intro res hres pid
    rw [(hres.filter (fun r => r.pipeline_id == pid)).length_eq]
    unfold dispatch
    rw [List.filter_map]
    rw [List.length_map]
    congr 1
    apply List.filter_congr
    intro p _
    simp [fetch_with_metadata_pipeline_id]
  · intro p _ heq
    unfold fetch_pipeline_jobs_with_metadata
    rw [heq]

/-- Witness for C6 at a concrete pipeline list and fetch functions, one of
which fails permanently on the other pipeline. -/
theorem C6_dispatcher_exactly_once_witness :
    (dispatch (fun i => if i == 7 then Except.error "HTTP 404" else Except.ok [])
        [⟨7, "main"⟩, ⟨8, "dev"⟩]).length = 2
    ∧ (dispatch (fun i => if i == 7 then Except.error "HTTP 404" else Except.ok [])
        [⟨7, "main"⟩, ⟨8, "dev"⟩])[0]?
      = ([⟨7, "main"⟩, ⟨8, "dev"⟩] : List Pipeline)[0]?.map
          (fetch_pipeline_jobs_with_metadata
            (fun i => if i == 7 then Except.error "HTTP 404" else Except.ok []))
    ∧ fetch_pipeline_jobs_with_metadata
        (fun i => if i == 7 then Except.error "HTTP 404" else Except.ok []) ⟨8, "dev"⟩
      = fetch_pipeline_jobs_with_metadata (fun _ => Except.ok []) ⟨8, "dev"⟩ :=
  ⟨(C6_dispatcher_exactly_once
      (fun i => if i == 7 then Except.error "HTTP 404" else Except.ok [])
      (fun _ => Except.ok []) [⟨7, "main"⟩, ⟨8, "dev"⟩]).1,
   (C6_dispatcher_exactly_once
      (fun i => if i == 7 then Except.error "HTTP 404" else Except.ok [])
      (fun _ => Except.ok []) [⟨7, "main"⟩, ⟨8, "dev"⟩]).2.1 0,
   (C6_dispatcher_exactly_once
      (fun i => if i == 7 then Except.error "HTTP 404" else Except.ok [])
      (fun _ => Except.ok []) [⟨7, "main"⟩, ⟨8, "dev"⟩]).2.2.2 ⟨8, "dev"⟩
      (by decide) (by rfl)⟩

/-- Counterexample for claim C7: the analysis return value carries no
skipped-pipeline list.  A drained result list holding one permanently failed
pipeline produces a return value identical to the one produced from an empty
input — the failure is invisible in the value handed back to the caller (it
is only logged). -/
theorem C7_failure_not_in_result_counterexample :
    analyze_flakiness_vs_legitimate_failures [⟨7, "main", [], false, some "boom"⟩]
      = analyze_flakiness_vs_legitimate_failures [] := rfl

/-- Claim C7 as amended: a per-pipeline failure is recorded in the drained
result entry with its pipeline id and cause, its jobs are excluded from
classification and aggregation, and it does not abort the batch — the
analysis of any result list equals the analysis of its successful entries
alone; but the failure is only logged, not included in the returned
statistics. -/
theorem C7_failure_isolated_amended (results : List PipelineResult)
    (fetch : Nat → Except String (List Job)) (p : Pipeline) (e : String)
    (he : fetch p.id = Except.error e) :
    fetch_pipeline_jobs_with_metadata fetch p = ⟨p.id, p.ref, [], false, some e⟩
    ∧ analyze_flakiness_vs_legitimate_failures results
        = analyze_flakiness_vs_legitimate_failures
            (results.filter (fun r => r.success)) := by
  constructor
  · unfold fetch_pipeline_jobs_with_metadata
    rw [he]
  · exact foldl_processResult_filter results initState

/-- Witness for the amended C7 at a concrete failing pipeline. -/
theorem C7_failure_isolated_amended_witness :
    fetch_pipeline_jobs_with_metadata (fun _ => Except.error "boom") ⟨7, "main"⟩
      = ⟨7, "main", [], false, some "boom"⟩
    ∧ analyze_flakiness_vs_legitimate_failures
        [⟨7, "main", [], false, some "boom"⟩,
         ⟨8, "dev", [⟨1, "t", "success"⟩], true, none⟩]
      = analyze_flakiness_vs_legitimate_failures
          (([⟨7, "main", [], false, some "boom"⟩,
             ⟨8, "dev", [⟨1, "t", "success"⟩], true, none⟩] : List PipelineResult).filter
            (fun r => r.success)) :=
  C7_failure_isolated_amended _ (fun _ => Except.error "boom") ⟨7, "main"⟩ "boom" rfl

/-- Call sequence refuting claim C2: a 429 with Retry-After 5, then two
transient network errors, then a good response.  Under the claim the 429
retry consumes no budget slot, so the two transient failures leave one
attempt of the budget of 3 and the fetch succeeds (as the spec-modelled
fetcher shows); the code's 429 `continue` advances the loop index, so the
budget is exhausted and the fetch fails. -/
def call429 : Nat → Outcome := fun i =>
  match i with
  | 0 => Outcome.ok 429 (some 5)
  | 1 => Outcome.netErr "timeout"
  | 2 => Outcome.netErr "timeout"
  | _ => Outcome.ok 200 none

/-- Counterexample for claim C2: on `call429` the code's fetcher sleeps 5s
for the 429 but then fails after only two further attempts — the 429 retry
consumed a slot of the attempt budget — while the spec-modelled fetcher,
whose 429 handling consumes no slot, succeeds on the same call sequence. -/
theorem C2_429_consumes_budget_counterexample :
    make_api_request_with_retry call429 = (Except.error "timeout", [5, 2])
    ∧ specFetch call429 = (Except.ok 200, [5, 1, 2]) :=
  ⟨rfl, rfl⟩

/-- Claim C2 as amended: a 429 response makes the fetcher sleep the
Retry-After value (60 seconds when the header is absent) and retry, but the
retry consumes a slot of the fixed attempt budget — the loop resumes at the
next attempt index — so `RETRY_ATTEMPTS` consecutive 429 responses exhaust
the budget with a terminal Max-retries error. -/
theorem C2_429_sleep_and_retry_amended (call : Nat → Outcome) (t : Nat) :
    (call 0 = Outcome.ok 429 (some t) →
      make_api_request_with_retry call = fetchLoop call (RETRY_ATTEMPTS - 1) 1 [t])
    ∧ (call 0 = Outcome.ok 429 none →
      make_api_request_with_retry call = fetchLoop call (RETRY_ATTEMPTS - 1) 1 [60])
    ∧ ((∀ i, i < RETRY_ATTEMPTS → call i = Outcome.ok 429 (some t)) →
      make_api_request_with_retry call
        = (Except.error "Max retries exceeded", [t, t, t])) := by
  refine ⟨?_, ?_, ?_⟩
  · intro h
    simp [make_api_request_with_retry, RETRY_ATTEMPTS, fetchLoop, h]
  · intro h
    simp [make_api_request_with_retry, RETRY_ATTEMPTS, fetchLoop, h]
  · intro h
    have h0 := h 0 (by norm_num [RETRY_ATTEMPTS])
    have h1 := h 1 (by norm_num [RETRY_ATTEMPTS])
    have h2 := h 2 (by norm_num [RETRY_ATTEMPTS])
    simp [make_api_request_with_retry, RETRY_ATTEMPTS, fetchLoop, h0, h1, h2]

/-- Witness for the amended C2 at the all-429 call sequence. -/
theorem C2_429_sleep_and_retry_amended_witness :
    make_api_request_with_retry (fun _ => Outcome.ok 429 (some 5))
      = fetchLoop (fun _ => Outcome.ok 429 (some 5)) (RETRY_ATTEMPTS - 1) 1 [5]
    ∧ make_api_request_with_retry (fun _ => Outcome.ok 429 (some 5))
      = (Except.error "Max retries exceeded", [5, 5, 5]) :=
  ⟨(C2_429_sleep_and_retry_amended (fun _ => Outcome.ok 429 (some 5)) 5).1 rfl,
   (C2_429_sleep_and_retry_amended (fun _ => Outcome.ok 429 (some 5)) 5).2.2
     (fun _ _ => rfl)⟩

/-- Counterexample for claim C3: on a constant 404 the code's fetcher sleeps
1s and 2s — it retried the not-found response twice and consumed the whole
attempt budget — while under the claim (shown by the spec-modelled fetcher)
a non-429 4xx is surfaced immediately, with no sleeps and no retry
consumed. -/
theorem C3_4xx_retried_counterexample :
    make_api_request_with_retry (fun _ => Outcome.ok 404 none)
      = (Except.error "HTTP 404", [1, 2])
    ∧ specFetch (fun _ => Outcome.ok 404 none) = (Except.error "HTTP 404", []) :=
  ⟨rfl, rfl⟩

/-- Claim C3 as amended: `raise_for_status` turns every 4xx and 5xx response
into a `RequestException` caught by the same handler, so a 4xx status other
than 429 is retried with exponential backoff exactly like a 5xx status or a
network error — it is not surfaced immediately and it consumes the attempt
budget. -/
theorem C3_4xx_retried_like_5xx_amended (s : Nat) (m : String) (hs4 : 400 ≤ s)
    (hs6 : s < 600) (h429 : s ≠ 429) :
    make_api_request_with_retry (fun _ => Outcome.ok s none)
      = (Except.error ("HTTP " ++ toString s), [1, 2])
    ∧ make_api_request_with_retry (fun _ => Outcome.netErr m)
      = (Except.error m, [1, 2]) := by
  have hb : (s == 429) = false := by
    simp [h429]
  constructor
  · simp [make_api_request_with_retry, RETRY_ATTEMPTS, RETRY_BACKOFF, fetchLoop,
      hb, hs4, hs6]
  · simp [make_api_request_with_retry, RETRY_ATTEMPTS, RETRY_BACKOFF, fetchLoop]

/-- Witness for the amended C3 at a 404 and a network error. -/
theorem C3_4xx_retried_like_5xx_amended_witness :
    make_api_request_with_retry (fun _ => Outcome.ok 404 none)
      = (Except.error ("HTTP " ++ toString 404), [1, 2])
    ∧ make_api_request_with_retry (fun _ => Outcome.netErr "connection reset")
      = (Except.error "connection reset", [1, 2]) :=
  C3_4xx_retried_like_5xx_amended 404 "connection reset" (by norm_num) (by norm_num)
    (by norm_num)

/-- Claim C9: a fetch whose first `RETRY_ATTEMPTS - 1` attempts fail
transiently and whose final attempt succeeds returns the successful
response, having slept the exponential schedule `RETRY_BACKOFF ^ attempt`
after each failed attempt: 1s then 2s for the default budget of 3. -/
theorem C9_retry_schedule (call : Nat → Outcome) (s : Nat) (hs : s < 400)
    (hfail : ∀ i, i < RETRY_ATTEMPTS - 1 → ∃ m, call i = Outcome.netErr m)
    (hsucc : call (RETRY_ATTEMPTS - 1) = Outcome.ok s none) :
    make_api_request_with_retry call
      = (Except.ok s, [RETRY_BACKOFF ^ 0, RETRY_BACKOFF ^ 1]) := by
  obtain ⟨m0, h0⟩ := hfail 0 (by norm_num [RETRY_ATTEMPTS])
  obtain ⟨m1, h1⟩ := hfail 1 (by norm_num [RETRY_ATTEMPTS])
  have h2 : call 2 = Outcome.ok s none := by
    simpa [RETRY_ATTEMPTS] using hsucc
  have hb : (s == 429) = false := by
    simp only [beq_eq_false_iff_ne]
    omega
  have hno : ¬(400 ≤ s ∧ s < 600) := by omega
  simp [make_api_request_with_retry, RETRY_ATTEMPTS, RETRY_BACKOFF, fetchLoop,
    h0, h1, h2, hb, hno]

/-- Witness for C9 at a concrete two-failures-then-success call sequence. -/
theorem C9_retry_schedule_witness :
    make_api_request_with_retry
      (fun i => if i < 2 then Outcome.netErr "timeout" else Outcome.ok 200 none)
      = (Except.ok 200, [RETRY_BACKOFF ^ 0, RETRY_BACKOFF ^ 1]) :=
  C9_retry_schedule _ 200 (by norm_num)
    (fun i hi => ⟨"timeout", by
      have h2 : i < 2 := by simpa [RETRY_ATTEMPTS] using hi
      simp [h2]⟩)
    (by norm_num [RETRY_ATTEMPTS])

/-- Counterexample for claim C4: a three-page sequence whose middle page is
empty but still carries a next link.  The code's paginator stops at the
empty page — `if not data: break` runs before the Link header is read — and
returns only the first page's items; under the claim (shown by the
spec-modelled paginator) the empty page's next link is still followed and
the third page's items are accumulated. -/
theorem C4_empty_page_counterexample :
    paginate [Page.mk [1] (some "u2"), Page.mk ([] : List Nat) (some "u3"),
        Page.mk [2] none] = [1]
    ∧ paginateSpec [Page.mk [1] (some "u2"), Page.mk ([] : List Nat) (some "u3"),
        Page.mk [2] none] = [1, 2] :=
  ⟨rfl, rfl⟩

/-- Claim C4 as amended: an empty page terminates the sequence
unconditionally — the loop breaks on zero items before consulting the next
link, so an empty page with a next link also terminates pagination and any
later items are dropped — while a page with no next link ends the sequence
after its own items. -/
theorem C4_empty_page_terminates_amended {α : Type} (p : Page α)
    (rest : List (Page α)) :
    (p.items = [] → paginate (p :: rest) = [])
    ∧ (p.nextUrl = none → paginate (p :: rest) = p.items) := by
  constructor
  · intro h
    simp [paginate, h]
  · intro h
    by_cases hi : p.items.isEmpty
    · rw [List.isEmpty_iff] at hi
      simp [paginate, hi]
    · simp [paginate, hi, h]

/-- Witness for the amended C4 at a concrete empty page with a next link and
a concrete final page. -/
theorem C4_empty_page_terminates_amended_witness :
    paginate [Page.mk ([] : List Nat) (some "u2"), Page.mk [9] none] = []
    ∧ paginate [Page.mk ([3] : List Nat) none, Page.mk [9] none] = [3] :=
  ⟨(C4_empty_page_terminates_amended (Page.mk ([] : List Nat) (some "u2"))
      [Page.mk [9] none]).1 rfl,
   (C4_empty_page_terminates_amended (Page.mk ([3] : List Nat) none)
      [Page.mk [9] none]).2 rfl⟩
